import Mathlib

/-!
Shallow embedding of the JVC projector serial-control engine
(`projector.py`): the frame codec (`send`/`recv`), the transport
session, and the per-model device profiles (HD250 / RS40), together
with theorems about framing, response classification, guarded
preconditions and the input-code tables.

Bytes are modelled as `List Nat`; the serial port as an explicit
record of the frames written so far and the byte stream still to be
read, with `readline` semantics (read up to and including the first
`0x0A`).  Python exceptions become the `Except` error channel, except
where the source *returns* an exception object, which is modelled
verbatim as a returned value.
-/

namespace JVC

abbrev Bytes := List Nat

/-- The kinds of `ProjectorCommunicationError` the source raises. -/
inductive CommKind where
  | noResponse
  | unknownResultCode (code : Nat)
  | unitIdMismatch (uid : Bytes)
  | commandMismatch (cmd : Bytes)
  deriving DecidableEq

/-- Python exception classes used by the source. -/
inductive PyErr where
  | communicationError (k : CommKind)
  | valueError (msg : String)
  | keyError
  deriving DecidableEq

/-- The Python values the engine's operations return. -/
inductive PyVal where
  | bool (b : Bool)
  | bytes (d : Bytes)
  | str (s : String)
  | none
  | exc (e : PyErr)
  deriving DecidableEq

/-- Python truthiness of the values above (`if not success:`). -/
def PyVal.truthy : PyVal → Bool
  | .bool b => b
  | .bytes d => !d.isEmpty
  | .str s => !s.isEmpty
  | .none => false
  | .exc _ => true

/-- The serial port: frames written so far, and the incoming byte
stream not yet consumed. -/
structure Port where
  written : List Bytes
  stream : Bytes
  deriving DecidableEq

/-- Bytes `readline` returns: up to and including the first `0x0A`,
or everything available if no terminator arrives before the timeout. -/
def takeline : Bytes → Bytes
  | [] => []
  | b :: rest => if b = 0x0A then [b] else b :: takeline rest

/-- The stream left after one `readline`. -/
def dropline : Bytes → Bytes
  | [] => []
  | b :: rest => if b = 0x0A then rest else dropline rest

def portWrite (frame : Bytes) (port : Port) : Port :=
  { port with written := port.written ++ [frame] }

def portReadline (port : Port) : Bytes × Port :=
  (takeline port.stream, { port with stream := dropline port.stream })

/-- The outbound frame `Projector.send` writes:
`header ++ unit_id ++ cmd ++ data? ++ 0x0A` (an empty `data` is falsy
in Python and is dropped like `None`). -/
def encode (header unit_id cmd : Bytes) (data : Option Bytes) : Bytes :=
  match data with
  | Option.none => header ++ unit_id ++ cmd ++ [0x0A]
  | some d => if d = [] then header ++ unit_id ++ cmd ++ [0x0A]
              else header ++ unit_id ++ cmd ++ d ++ [0x0A]

/-- `Projector.recv` on the bytes one `readline` returned: classify by
result code, check unit id and command echo, strip terminator. -/
def recv (unit_id cmd resp : Bytes) : Except PyErr PyVal :=
  if resp = [] then .error (.communicationError .noResponse)
  else
    let result_code := resp.headD 0
    let msgtype : Option String :=
      if result_code = 0x06 then some "ack"
      else if result_code = 0x40 then some "data"
      else Option.none
    match msgtype with
    | Option.none => .error (.communicationError (.unknownResultCode result_code))
    | some mt =>
      let response_unit_id := (resp.drop 1).take 2
      if response_unit_id ≠ unit_id then
        .error (.communicationError (.unitIdMismatch response_unit_id))
      else
        let response_cmd := (resp.drop 3).take cmd.length
        if response_cmd ≠ cmd then
          .error (.communicationError (.commandMismatch response_cmd))
        else
          let data := (resp.drop (3 + cmd.length)).dropLast
          if mt = "data" then .ok (.bytes data)
          else if mt = "ack" then .ok (.bool true)
          else if mt = "fail" then .ok (.bool false)
          else .error (.valueError "invalid internal msgtype")

/-- One `readline` followed by `recv`: what the session does after a
frame hits the wire. -/
def decodeFrame (unit_id cmd wire : Bytes) : Except PyErr PyVal :=
  recv unit_id cmd (takeline wire)

/-- `recv` acting on the port (read one line, parse it). -/
def recvPort (unit_id cmd : Bytes) (port : Port) : Except PyErr PyVal × Port :=
  let (resp, port1) := portReadline port
  (recv unit_id cmd resp, port1)

/-- `Projector.send`: write the encoded frame, then read one response
under `response_cmd` (defaulting to `cmd` when absent or falsy). -/
def send (unit_id header cmd : Bytes) (data : Option Bytes)
    (response_cmd : Option Bytes) (port : Port) : Except PyErr PyVal × Port :=
  let port1 := portWrite (encode header unit_id cmd data) port
  let rcmd := match response_cmd with
    | Option.none => cmd
    | some r => if r = [] then cmd else r
  recvPort unit_id rcmd port1

def send_operating (unit_id cmd : Bytes) (data : Option Bytes)
    (response_cmd : Option Bytes) (port : Port) : Except PyErr PyVal × Port :=
  send unit_id [0x21] cmd data response_cmd port

/-- `Projector.send_reference`: a `0x3f` request; when the first
response is exactly `True` (an Ack), one more read fetches the data. -/
def send_reference (unit_id cmd : Bytes) (data : Option Bytes)
    (port : Port) : Except PyErr (PyVal × Option PyVal) × Port :=
  match send unit_id [0x3f] cmd data Option.none port with
  | (.error e, p) => (.error e, p)
  | (.ok was_ok, p) =>
    if was_ok = .bool true then
      match recvPort unit_id cmd p with
      | (.error e, p2) => (.error e, p2)
      | (.ok st, p2) => (.ok (was_ok, some st), p2)
    else (.ok (was_ok, Option.none), p)

/-- The power-mode table of `Projector.mode` (`modes` dict lookup on
the returned payload bytes). -/
def modeLookup (state : Bytes) : Option String :=
  if state = [0x30] then some "standby"
  else if state = [0x31] then some "power-on"
  else if state = [0x32] then some "cool-down"
  else if state = [0x34] then some "warning"
  else Option.none

/-- `Projector.mode`: reference query `50 57`; any exception from the
exchange is caught and printed, leaving `success = None`, so the
method returns `None`; a falsy success likewise returns `None`; a
payload outside `modeLookup` raises `ValueError`. -/
def mode (unit_id : Bytes) (port : Port) : Except PyErr PyVal × Port :=
  match send_reference unit_id [0x50, 0x57] Option.none port with
  | (.error _, p) => (.ok .none, p)
  | (.ok (success, state), p) =>
    if success.truthy = false then (.ok .none, p)
    else
      match state with
      | some (.bytes d) =>
        match modeLookup d with
        | some m => (.ok (.str m), p)
        | Option.none => (.error (.valueError "unknown power state"), p)
      | _ => (.error (.valueError "unknown power state"), p)

def turn_on (unit_id : Bytes) (port : Port) : Except PyErr PyVal × Port :=
  send_operating unit_id [0x50, 0x57] (some [0x31]) Option.none port

def turn_off (unit_id : Bytes) (port : Port) : Except PyErr PyVal × Port :=
  send_operating unit_id [0x50, 0x57] (some [0x30]) Option.none port

/-- `Button.CODES`: the registry of remote-control button codes. -/
def buttonCodes : List (String × Bytes) :=
  [("up", [0x30, 0x31]), ("down", [0x30, 0x32]), ("back", [0x30, 0x33]),
   ("on", [0x30, 0x35]), ("standby", [0x30, 0x36]), ("input", [0x30, 0x38]),
   ("brightness", [0x30, 0x39]), ("contrast", [0x30, 0x41]),
   ("sharpness", [0x31, 0x34]), ("color", [0x31, 0x35]),
   ("tint", [0x31, 0x36]), ("noise_reduction", [0x31, 0x38]),
   ("hide", [0x31, 0x44]), ("lens_aperture", [0x32, 0x30]),
   ("menu", [0x32, 0x45]), ("ok", [0x32, 0x46]), ("lens", [0x33, 0x30]),
   ("right", [0x33, 0x34]), ("left", [0x33, 0x36]), ("test", [0x35, 0x39]),
   ("stage", [0x36, 0x37]), ("cinema2", [0x36, 0x38]),
   ("cinema1", [0x36, 0x39]), ("natural", [0x36, 0x41]),
   ("dynamic", [0x36, 0x42]), ("user1", [0x36, 0x44]),
   ("user2", [0x36, 0x43]), ("user3", [0x36, 0x45]), ("info", [0x37, 0x34]),
   ("gamma", [0x37, 0x35]), ("color_temp", [0x37, 0x36]),
   ("aspect", [0x37, 0x37])]

/-- First-match association lookup (the tables have distinct keys, so
this agrees with the Python dict). -/
def lookupA {α β : Type} [DecidableEq α] : List (α × β) → α → Option β
  | [], _ => Option.none
  | (k, v) :: rest, key => if key = k then some v else lookupA rest key

/-- A device profile: the per-model valid-button set and
input-code table (`HD250` / `RS40` subclass data). -/
structure Profile where
  validButtons : List String
  inputSources : List (String × Bytes)
  deriving DecidableEq

/-- `SOURCE_CODES`: the inverted input table. -/
def sourceCodes (p : Profile) : List (Bytes × String) :=
  p.inputSources.map (fun sc => (sc.2, sc.1))

/-- `source_to_code`: `INPUT_SOURCES[source]`; `none` is Python's
`KeyError`. -/
def source_to_code (p : Profile) (source : String) : Option Bytes :=
  lookupA p.inputSources source

/-- `code_to_source`: `SOURCE_CODES[code]`. -/
def code_to_source (p : Profile) (code : Bytes) : Option String :=
  lookupA (sourceCodes p) code

def HD250 : Profile :=
  { validButtons :=
      ["up", "down", "back", "on", "standby", "input", "brightness",
       "contrast", "sharpness", "color", "tint", "noise_reduction", "hide",
       "lens_aperture", "menu", "ok", "lens", "right", "left", "test",
       "stage", "cinema2", "cinema1", "natural", "dynamic", "user1",
       "user2", "user3", "info", "gamma", "color_temp", "aspect"]
    inputSources :=
      [("s-video", [0x30]), ("video", [0x31]), ("computer", [0x32]),
       ("hdmi1", [0x36]), ("hdmi2", [0x37])] }

def RS40 : Profile :=
  { validButtons :=
      ["up", "down", "back", "on", "standby", "hide", "lens_aperture",
       "menu", "ok", "lens", "right", "left", "stage", "cinema2",
       "cinema1", "natural", "dynamic", "user1", "user2", "user3",
       "info", "gamma", "color_temp", "aspect"]
    inputSources :=
      [("component", [0x32]), ("hdmi1", [0x36]), ("hdmi2", [0x37])] }

/-- `Projector.set_input`: power-on guard first, then the profile's
code lookup — on a `KeyError` the source *returns* the `ValueError`
instead of raising it, which the `.ok (.exc _)` branch mirrors. -/
def set_input (p : Profile) (unit_id : Bytes) (source : String)
    (port : Port) : Except PyErr PyVal × Port :=
  match mode unit_id port with
  | (.error e, pt) => (.error e, pt)
  | (.ok m, pt) =>
    if m ≠ .str "power-on" then (.ok (.bool false), pt)
    else
      match source_to_code p source with
      | Option.none =>
        (.ok (.exc (.valueError ("invalid input " ++ source))), pt)
      | some code =>
        send_operating unit_id [0x49, 0x50] (some code) Option.none pt

/-- `Projector.press_button`: validity check before any transport
use, then operating command `52 43 37 33` with the response expected
under the shorter `52 43`. -/
def press_button (p : Profile) (unit_id : Bytes) (btn : String)
    (port : Port) : Except PyErr PyVal × Port :=
  if btn ∉ p.validButtons then
    (.error (.valueError ("unsupported button " ++ btn)), port)
  else
    match lookupA buttonCodes btn with
    | Option.none => (.error .keyError, port)
    | some code =>
      send_operating unit_id [0x52, 0x43, 0x37, 0x33] (some code)
        (some [0x52, 0x43]) port

/-- `Projector.input`: power-on guard, reference query `49 50`,
decode through the profile's inverted table; an unknown code raises
`ValueError`. -/
def currentInput (p : Profile) (unit_id : Bytes) (port : Port) :
    Except PyErr PyVal × Port :=
  match mode unit_id port with
  | (.error e, pt) => (.error e, pt)
  | (.ok m, pt) =>
    if m ≠ .str "power-on" then (.ok .none, pt)
    else
      match send_reference unit_id [0x49, 0x50] Option.none pt with
      | (.error e, p2) => (.error e, p2)
      | (.ok (success, state), p2) =>
        if success.truthy = false then (.ok .none, p2)
        else
          match state with
          | some (.bytes d) =>
            match code_to_source p d with
            | some s => (.ok (.str s), p2)
            | Option.none => (.error (.valueError "unknown video state"), p2)
          | _ => (.error (.valueError "unknown video state"), p2)

deriving instance DecidableEq for Except

/-! ## Theorems -/

/-- A two-frame incoming stream that makes the power-mode query of
`mode` answer with payload byte `b`: an Ack for the `0x3f` request,
then a Data frame carrying `b`. -/
def modeReplyStream (b : Nat) : Bytes :=
  [0x06, 0x89, 0x01, 0x50, 0x57, 0x0A] ++
    [0x40, 0x89, 0x01, 0x50, 0x57, b, 0x0A]

/-- C7: an empty read makes `recv` fail with the `NoResponse`
communication error — a classified error on the error channel, not a
crash and not a returned value. -/
theorem recv_empty_noResponse (unit_id cmd : Bytes) :
    recv unit_id cmd [] = .error (.communicationError .noResponse) := rfl

/-- C8: with unit id `0x8901`, `turn_on` writes exactly the frame
`21 89 01 50 57 31 0A`, and the response `06 89 01 50 57 0A` makes it
return `True`. -/
theorem turn_on_wire_exchange :
    turn_on [0x89, 0x01] ⟨[], [0x06, 0x89, 0x01, 0x50, 0x57, 0x0A]⟩ =
      (.ok (.bool true),
        ⟨[[0x21, 0x89, 0x01, 0x50, 0x57, 0x31, 0x0A]], []⟩) := by decide

/-- C1: on a powered-on RS40 (Family B), `set_input "video"` hits the
`KeyError` branch, and the source *returns* the `ValueError` object
as the call's value (`.ok (.exc _)`) instead of raising it
(`.error _`). -/
theorem set_input_returns_valueError :
    set_input RS40 [0x89, 0x01] "video" ⟨[], modeReplyStream 0x31⟩ =
      (.ok (.exc (.valueError "invalid input video")),
        ⟨[[0x3f, 0x89, 0x01, 0x50, 0x57, 0x0A]], []⟩) := by decide

/-- C2 counterexample: the round trip does not hold for *every*
header byte — with the operating header `0x21` the decoder rejects
the frame with `UnknownResultCode` instead of recovering the payload. -/
theorem decode_encode_fails_on_header_21 :
    decodeFrame [0x89, 0x01] [0x50, 0x57]
        (encode [0x21] [0x89, 0x01] [0x50, 0x57] (some [0x31])) =
      .error (.communicationError (.unknownResultCode 0x21)) ∧
    decodeFrame [0x89, 0x01] [0x50, 0x57]
        (encode [0x21] [0x89, 0x01] [0x50, 0x57] (some [0x31])) ≠
      .ok (.bytes [0x31]) := by decide

/-- C6: a button outside the active profile's valid-button set makes
`press_button` fail with the `ValueError` and leaves the port
untouched: nothing is written and nothing is read. -/
theorem press_button_rejects_unknown (p : Profile) (unit_id : Bytes)
    (btn : String) (port : Port) (h : btn ∉ p.validButtons) :
    press_button p unit_id btn port =
      (.error (.valueError ("unsupported button " ++ btn)), port) := by
  simp [press_button, h]

/-- C6 witness: `"input"` is not an RS40 button, and `press_button`
rejects it without any I/O. -/
theorem press_button_rejects_unknown_witness :
    press_button RS40 [0x89, 0x01] "input" ⟨[], []⟩ =
      (.error (.valueError ("unsupported button " ++ "input")), ⟨[], []⟩) :=
  press_button_rejects_unknown RS40 [0x89, 0x01] "input" ⟨[], []⟩ (by decide)

/-- C9: in both profiles the input table is a bijection: composing the
two lookup directions is the identity on every supported source and
on every table code. -/
theorem input_tables_bijective :
    ((HD250.inputSources.map Prod.fst).all fun s =>
        (source_to_code HD250 s).bind (code_to_source HD250) = some s) ∧
    ((sourceCodes HD250).map Prod.fst).all
        (fun c => (code_to_source HD250 c).bind (source_to_code HD250)
          = some c) ∧
    ((RS40.inputSources.map Prod.fst).all fun s =>
        (source_to_code RS40 s).bind (code_to_source RS40) = some s) ∧
    ((sourceCodes RS40).map Prod.fst).all
        (fun c => (code_to_source RS40 c).bind (source_to_code RS40)
          = some c) := by decide

/-- `readline` consumes exactly one terminator-free line plus its
terminator. -/
theorem takeline_append (l rest : Bytes) (h : 0x0A ∉ l) :
    takeline (l ++ 0x0A :: rest) = l ++ [0x0A] := by
  induction l with
  | nil => simp [takeline]
  | cons b bs ih =>
    simp only [List.mem_cons, not_or] at h
    simp [takeline, Ne.symm h.1, ih h.2]

/-- C5: whenever the power-mode query yields anything other than
`"power-on"`, `set_input` returns `False` and `current_input` returns
`None`, and the port is left exactly as the mode query left it — no
further bytes are transmitted. -/
theorem powered_off_guard (p : Profile) (unit_id : Bytes)
    (source : String) (port : Port) (m : PyVal)
    (hm : (mode unit_id port).1 = .ok m) (hne : m ≠ .str "power-on") :
    set_input p unit_id source port =
      (.ok (.bool false), (mode unit_id port).2) ∧
    currentInput p unit_id port = (.ok .none, (mode unit_id port).2) := by
  rcases hmp : mode unit_id port with ⟨r, pt⟩
  rw [hmp] at hm
  simp only at hm
  subst hm
  refine ⟨?_, ?_⟩
  · simp [set_input, hmp, hne]
  · simp [currentInput, hmp, hne]

/-- C5 witness: with nothing arriving on the wire the mode query
yields `None`, and both guarded operations bail out at the guard. -/
theorem powered_off_guard_witness :
    set_input HD250 [0x89, 0x01] "video" ⟨[], []⟩ =
      (.ok (.bool false), (mode [0x89, 0x01] (⟨[], []⟩ : Port)).2) ∧
    currentInput HD250 [0x89, 0x01] ⟨[], []⟩ =
      (.ok .none, (mode [0x89, 0x01] (⟨[], []⟩ : Port)).2) :=
  powered_off_guard HD250 [0x89, 0x01] "video" ⟨[], []⟩ .none
    (by decide) (by decide)

/-- C4: `mode` decodes the query's payload byte against the fixed
table `{0x30 standby, 0x31 power-on, 0x32 cool-down, 0x34 warning}`
— in particular `0x31` yields `"power-on"` — and any payload byte
outside the table makes it raise the fatal `ValueError` instead of
returning a default. -/
theorem power_mode_decoding (b : Nat) (h30 : b ≠ 0x30) (h31 : b ≠ 0x31)
    (h32 : b ≠ 0x32) (h34 : b ≠ 0x34) :
    (mode [0x89, 0x01] ⟨[], modeReplyStream 0x30⟩).1 = .ok (.str "standby") ∧
    (mode [0x89, 0x01] ⟨[], modeReplyStream 0x31⟩).1 = .ok (.str "power-on") ∧
    (mode [0x89, 0x01] ⟨[], modeReplyStream 0x32⟩).1 = .ok (.str "cool-down") ∧
    (mode [0x89, 0x01] ⟨[], modeReplyStream 0x34⟩).1 = .ok (.str "warning") ∧
    (mode [0x89, 0x01] ⟨[], modeReplyStream b⟩).1 =
      .error (.valueError "unknown power state") := by
  refine ⟨by decide, by decide, by decide, by decide, ?_⟩
  by_cases hb : b = 0x0A
  · subst hb; decide
  · simp [mode, send_reference, send, recvPort, portReadline, portWrite,
      encode, recv, takeline, dropline, modeReplyStream, modeLookup,
      PyVal.truthy, hb, h30, h31, h32, h34]

/-- C4 witness: the undocumented payload byte `0x39` is rejected. -/
theorem power_mode_decoding_witness :
    (mode [0x89, 0x01] ⟨[], modeReplyStream 0x31⟩).1 = .ok (.str "power-on") ∧
    (mode [0x89, 0x01] ⟨[], modeReplyStream 0x39⟩).1 =
      .error (.valueError "unknown power state") :=
  ⟨(power_mode_decoding 0x39 (by decide) (by decide) (by decide)
      (by decide)).2.1,
   (power_mode_decoding 0x39 (by decide) (by decide) (by decide)
      (by decide)).2.2.2.2⟩

/-- C2 (amended): for a *Data* header (`0x40`), a two-byte unit id
and command/payload bytes free of the terminator, decoding the
encoded frame passes the unit-id and command-echo checks and returns
exactly the payload. -/
theorem decode_encode_roundTrip (u1 u2 : Nat) (cmd payload : Bytes)
    (hu1 : u1 ≠ 0x0A) (hu2 : u2 ≠ 0x0A) (hcmd : 0x0A ∉ cmd)
    (hpay : 0x0A ∉ payload) (hcne : cmd ≠ []) (hpne : payload ≠ []) :
    decodeFrame [u1, u2] cmd
        (encode [0x40] [u1, u2] cmd (some payload)) =
      .ok (.bytes payload) := by
  have hfr : encode [0x40] [u1, u2] cmd (some payload) =
      (0x40 :: u1 :: u2 :: (cmd ++ payload)) ++ 0x0A :: [] := by
    simp [encode, hpne]
  have htl : takeline ((0x40 :: u1 :: u2 :: (cmd ++ payload)) ++ 0x0A :: [])
      = (0x40 :: u1 :: u2 :: (cmd ++ payload)) ++ [0x0A] := by
    refine takeline_append _ _ ?_
    simp only [List.mem_cons, List.mem_append, not_or]
    exact ⟨by decide, Ne.symm hu1, Ne.symm hu2, fun hc => hcmd hc,
      fun hp => hpay hp⟩
  have hshape : (0x40 :: u1 :: u2 :: (cmd ++ payload)) ++ [0x0A] =
      0x40 :: u1 :: u2 :: (cmd ++ (payload ++ [0x0A])) := by simp
  have hdrop3 : (0x40 :: u1 :: u2 :: (cmd ++ (payload ++ [0x0A]))).drop 3
      = cmd ++ (payload ++ [0x0A]) := rfl
  have hdropAll :
      (0x40 :: u1 :: u2 :: (cmd ++ (payload ++ [0x0A]))).drop
        (3 + cmd.length) = payload ++ [0x0A] := by
    have hlen : 3 + cmd.length = ([0x40, u1, u2] ++ cmd).length := by
      simp [List.length_append]
      omega
    have hsplit : 0x40 :: u1 :: u2 :: (cmd ++ (payload ++ [0x0A])) =
        ([0x40, u1, u2] ++ cmd) ++ (payload ++ [0x0A]) := by simp
    rw [hlen, hsplit, List.drop_left]
  unfold decodeFrame
  rw [hfr, htl, hshape]
  unfold recv
  simp [hdrop3, hdropAll, List.take_left]

/-- C2 witness: the round trip at the power-query frame
`40 89 01 50 57 31 0A`. -/
theorem decode_encode_roundTrip_witness :
    decodeFrame [0x89, 0x01] [0x50, 0x57]
        (encode [0x40] [0x89, 0x01] [0x50, 0x57] (some [0x31])) =
      .ok (.bytes [0x31]) :=
  decode_encode_roundTrip 0x89 0x01 [0x50, 0x57] [0x31] (by decide)
    (by decide) (by decide) (by decide) (by decide) (by decide)

/-- C3: on a non-empty response, `recv` fails with
`UnknownResultCode` exactly when the first byte is neither `0x06` nor
`0x40`; given a valid first byte, with `UnitIdMismatch` exactly when
bytes `[1:3]` differ from the configured unit id; given a matching
unit id, with `CommandMismatch` exactly when the command echo differs
from the expected command — and every error it raises is a
`ProjectorCommunicationError`. -/
theorem recv_error_classification (unit_id cmd resp : Bytes)
    (h : resp ≠ []) :
    ((∃ c, recv unit_id cmd resp =
        .error (.communicationError (.unknownResultCode c))) ↔
      (resp.headD 0 ≠ 0x06 ∧ resp.headD 0 ≠ 0x40)) ∧
    (resp.headD 0 = 0x06 ∨ resp.headD 0 = 0x40 →
      ((∃ u, recv unit_id cmd resp =
          .error (.communicationError (.unitIdMismatch u))) ↔
        (resp.drop 1).take 2 ≠ unit_id)) ∧
    (resp.headD 0 = 0x06 ∨ resp.headD 0 = 0x40 →
      (resp.drop 1).take 2 = unit_id →
      ((∃ c, recv unit_id cmd resp =
          .error (.communicationError (.commandMismatch c))) ↔
        (resp.drop 3).take cmd.length ≠ cmd)) ∧
    (∀ e, recv unit_id cmd resp = .error e →
      ∃ k, e = .communicationError k) := by
  rcases resp with _ | ⟨b, rest⟩
  · exact absurd rfl h
  by_cases h6 : b = 0x06
  · subst h6
    by_cases hu : rest.take 2 = unit_id <;>
      by_cases hc : (rest.drop 2).take cmd.length = cmd <;>
      simp [recv, hu, hc]
  · by_cases h40 : b = 0x40
    · subst h40
      by_cases hu : rest.take 2 = unit_id <;>
        by_cases hc : (rest.drop 2).take cmd.length = cmd <;>
        simp [recv, hu, hc]
    · simp [recv, h6, h40]

/-- C3 witness: a response whose result byte `0x21` is neither Ack
nor Data is rejected as `UnknownResultCode`. -/
theorem recv_error_classification_witness :
    ∃ c, recv [0x89, 0x01] [0x50, 0x57] [0x21, 0x89, 0x01] =
      .error (.communicationError (.unknownResultCode c)) :=
  ((recv_error_classification [0x89, 0x01] [0x50, 0x57] [0x21, 0x89, 0x01]
      (by decide)).1).mpr (by decide)

/-- C10: whenever `recv` returns normally, the value is `True` (Ack)
or the payload bytes (Data); the `"fail"` branch returning `False`
and the trailing `invalid internal msgtype` `ValueError` are
unreachable. -/
theorem recv_never_false (unit_id cmd resp : Bytes) :
    (∀ v, recv unit_id cmd resp = .ok v →
      v = .bool true ∨
        v = .bytes ((resp.drop (3 + cmd.length)).dropLast)) ∧
    recv unit_id cmd resp ≠ .ok (.bool false) ∧
    recv unit_id cmd resp ≠ .error (.valueError "invalid internal msgtype")
    := by
  rcases resp with _ | ⟨b, rest⟩
  · simp [recv]
  by_cases h6 : b = 0x06
  · subst h6
    by_cases hu : rest.take 2 = unit_id <;>
      by_cases hc : (rest.drop 2).take cmd.length = cmd <;>
      simp [recv, hu, hc]
  · by_cases h40 : b = 0x40
    · subst h40
      by_cases hu : rest.take 2 = unit_id <;>
        by_cases hc : (rest.drop 2).take cmd.length = cmd <;>
        simp [recv, hu, hc]
    · simp [recv, h6, h40]

/-- C10 witness: the Data frame `40 89 01 50 57 31 0A` decodes to its
payload, which the theorem classifies. -/
theorem recv_never_false_witness :
    PyVal.bytes [0x31] = .bool true ∨
      PyVal.bytes [0x31] =
        .bytes ((([0x40, 0x89, 0x01, 0x50, 0x57, 0x31, 0x0A] : Bytes).drop
          (3 + ([0x50, 0x57] : Bytes).length)).dropLast) :=
  (recv_never_false [0x89, 0x01] [0x50, 0x57]
      [0x40, 0x89, 0x01, 0x50, 0x57, 0x31, 0x0A]).1
    (.bytes [0x31]) (by decide)

end JVC
